import Mathlib

/-!
Verification of the Customer-Risk-Scoring-Dashboard core pipeline:
`src/scoring/risk_engine.py`, `src/monitoring/alert_engine.py`, and
`src/monitoring/case_manager.py`, shallowly embedded in Lean 4.

Modelling conventions:
* pandas rows become Lean structures; a per-customer DataFrame becomes a
  `List Transaction`;
* Python floats are idealised as `ℚ` (exact rational arithmetic);
  `round(x, 2)` is modelled as rounding `100*x` to the nearest integer
  (Python uses ties-to-even on binary floats; no claim here depends on
  tie behaviour);
* `datetime.now()` and `uuid.uuid4()` are environment inputs, so each
  call site becomes an explicit parameter (a timestamp in seconds `ℤ`,
  an identifier `String`); `timedelta(hours=h)` is `3600*h` seconds;
* the Python code of this repository raises no exceptions: every
  operation is a total function.  Where a claim speaks about raised
  errors, an `Except`-typed view of the same source function is used,
  which (faithfully to the source, which contains no `raise`) always
  returns `.ok`.
-/

namespace RiskEngine

/-- One PaySim transaction row, restricted to the columns the scoring
engine reads (`type`, `amount`, `isFraud`). -/
structure Transaction where
  type : String
  amount : ℚ
  isFraud : Bool
deriving DecidableEq, Repr

/-- `RiskScoringEngine.tx_type_scores` with the `.get(tx_type, 10)`
default for unknown types. -/
def tx_type_scores (t : String) : ℚ :=
  if t = "TRANSFER" then 85
  else if t = "CASH_OUT" then 60
  else if t = "PAYMENT" then 10
  else if t = "CASH_IN" then 10
  else if t = "DEBIT" then 10
  else 10

/-- `RiskScoringEngine.thresholds['high_amount']` (95th percentile). -/
def high_amount_threshold : ℚ := 578381.88

/-- `RiskScoringEngine.calculate_transaction_type_score`.
The source iterates over `value_counts`, accumulating
`(count_t / n) * score_t`; summing the per-transaction score and dividing
by `n` once is the same sum regrouped.  For the empty set the loop body
never runs and the function returns `min 0 100 = 0`; here `sum/0 = 0`
in `ℚ` gives the same value.  (`most_common_type` is computed by the
source but never used.) -/
def calculate_transaction_type_score (l : List Transaction) : ℚ :=
  min ((l.map (fun t => tx_type_scores t.type)).sum / (l.length : ℚ)) 100

/-- Maximum of the `amount` column (`.max()`), on a non-empty list. -/
def max_amount (l : List Transaction) : ℚ :=
  ((l.map (fun t => t.amount)).max?).getD 0

/-- Mean of the `amount` column (`.mean()`). -/
def avg_amount (l : List Transaction) : ℚ :=
  (l.map (fun t => t.amount)).sum / (l.length : ℚ)

/-- `RiskScoringEngine.calculate_amount_risk_score`. -/
def calculate_amount_risk_score (l : List Transaction) : ℚ :=
  if l.length = 0 then 0
  else if high_amount_threshold ≤ max_amount l then 90
  else if 100000 ≤ max_amount l then 60
  else if 50000 ≤ avg_amount l then 30
  else 10

/-- Number of rows with `isFraud` set (`customer_data['isFraud'].sum()`). -/
def fraud_count (l : List Transaction) : ℕ :=
  (l.filter (fun t => t.isFraud)).length

/-- The `fraud_rate` local of `calculate_fraud_history_score`
(`fraud_count / total_tx`; the `if total_tx > 0` guard is subsumed by
`x / 0 = 0` in `ℚ` and by the caller's length guard). -/
def fraud_rate (l : List Transaction) : ℚ :=
  (fraud_count l : ℚ) / (l.length : ℚ)

/-- `RiskScoringEngine.calculate_fraud_history_score`. -/
def calculate_fraud_history_score (l : List Transaction) : ℚ :=
  if l.length = 0 then 0
  else if 1/2 ≤ fraud_rate l then 100
  else if 1/10 ≤ fraud_rate l then 80
  else if 0 < fraud_count l then 60
  else 0

/-- The `cash_out_rate` local of `calculate_cash_pattern_score`. -/
def cash_out_rate (l : List Transaction) : ℚ :=
  ((l.filter (fun t => t.type = "CASH_OUT")).length : ℚ) / (l.length : ℚ)

/-- `RiskScoringEngine.calculate_cash_pattern_score`. -/
def calculate_cash_pattern_score (l : List Transaction) : ℚ :=
  if l.length = 0 then 0
  else if 8/10 ≤ cash_out_rate l then 80
  else if 5/10 ≤ cash_out_rate l then 60
  else if 2/10 ≤ cash_out_rate l then 30
  else 10

/-- Python `round(x, 2)` idealised over `ℚ`: round `100*x` to the nearest
integer, divide back.  (Python rounds ties to even; no claim depends on a
tie.) -/
def round2 (q : ℚ) : ℚ := ((round (q * 100) : ℤ) : ℚ) / 100

/-- `RiskScoringEngine.get_risk_category`, thresholds
`high_risk = 85`, `medium_risk = 60`, `low_risk = 30`. -/
def get_risk_category (score : ℚ) : String :=
  if 85 ≤ score then "CRITICAL"
  else if 60 ≤ score then "HIGH"
  else if 30 ≤ score then "MEDIUM"
  else "LOW"

/-- The dict returned by `calculate_customer_risk_score`. -/
structure RiskResult where
  total_score : ℚ
  risk_category : String
  comp_transaction_type : ℚ
  comp_amount_risk : ℚ
  comp_fraud_history : ℚ
  comp_cash_pattern : ℚ
deriving DecidableEq, Repr

/-- `RiskScoringEngine.calculate_customer_risk_score`: weights
`transaction_type = 0.25`, `amount_risk = 0.30`, `fraud_history = 0.35`,
`cash_pattern = 0.10`; the category is computed from the un-rounded
total. -/
def calculate_customer_risk_score (l : List Transaction) : RiskResult :=
  let tx_type_score := calculate_transaction_type_score l
  let amount_score := calculate_amount_risk_score l
  let fraud_score := calculate_fraud_history_score l
  let cash_score := calculate_cash_pattern_score l
  let total_score :=
    tx_type_score * 0.25 + amount_score * 0.30 +
    fraud_score * 0.35 + cash_score * 0.10
  { total_score := round2 total_score
    risk_category := get_risk_category total_score
    comp_transaction_type := round2 tx_type_score
    comp_amount_risk := round2 amount_score
    comp_fraud_history := round2 fraud_score
    comp_cash_pattern := round2 cash_score }

/-- Error type the spec's §7 taxonomy names for scoring. -/
inductive ScoringError where
  | emptyInput
deriving DecidableEq, Repr

/-- `Except`-typed view of `calculate_customer_risk_score`.  The source
function contains no `raise` statement (no `EmptyInputError` class exists
anywhere in the repository), so every input — the empty set included —
returns `.ok`. -/
def calculate_customer_risk_score_exc (l : List Transaction) :
    Except ScoringError RiskResult :=
  Except.ok (calculate_customer_risk_score l)

/-- Rank of a risk category, for stating monotonicity. -/
def category_rank (c : String) : ℕ :=
  if c = "CRITICAL" then 3
  else if c = "HIGH" then 2
  else if c = "MEDIUM" then 1
  else 0

end RiskEngine

namespace AlertEngine

/-- `AlertType` enum of `alert_engine.py`. -/
inductive AlertType where
  | HIGH_RISK_CUSTOMER
  | PEP_DETECTED
  | SANCTIONS_MATCH
  | LARGE_TRANSACTION
  | SUSPICIOUS_PATTERN
  | FRAUD_INDICATOR
deriving DecidableEq, Repr

/-- `.value` of an `AlertType` member. -/
def AlertType.value : AlertType → String
  | .HIGH_RISK_CUSTOMER => "HIGH_RISK_CUSTOMER"
  | .PEP_DETECTED => "PEP_DETECTED"
  | .SANCTIONS_MATCH => "SANCTIONS_MATCH"
  | .LARGE_TRANSACTION => "LARGE_TRANSACTION"
  | .SUSPICIOUS_PATTERN => "SUSPICIOUS_PATTERN"
  | .FRAUD_INDICATOR => "FRAUD_INDICATOR"

/-- `alert_rules[...]['priority'].value` of `AMLAlertEngine.__init__`. -/
def alert_rules_priority : AlertType → String
  | .HIGH_RISK_CUSTOMER => "HIGH"
  | .PEP_DETECTED => "CRITICAL"
  | .SANCTIONS_MATCH => "CRITICAL"
  | .LARGE_TRANSACTION => "MEDIUM"
  | .SUSPICIOUS_PATTERN => "HIGH"
  | .FRAUD_INDICATOR => "CRITICAL"

/-- `alert_rules[...]['description']` of `AMLAlertEngine.__init__`. -/
def alert_rules_description : AlertType → String
  | .HIGH_RISK_CUSTOMER => "Customer risk score exceeds threshold"
  | .PEP_DETECTED => "Politically Exposed Person identified"
  | .SANCTIONS_MATCH => "Customer from sanctioned jurisdiction"
  | .LARGE_TRANSACTION => "Large transaction amount detected"
  | .SUSPICIOUS_PATTERN => "Suspicious transaction pattern identified"
  | .FRAUD_INDICATOR => "Historical fraud activity detected"

/-- `alert_thresholds` of `AMLAlertEngine.__init__`. -/
def critical_risk_score_threshold : ℚ := 85
def high_risk_score_threshold : ℚ := 60
def large_transaction_threshold : ℚ := 100000
def fraud_count_threshold : ℤ := 1
def pep_alert_enabled : Bool := true
def sanctions_alert_enabled : Bool := true

/-- The alert dict built by `AMLAlertEngine._create_alert` (string enum
values stored, as in the Python dict).  `created_at`/`status`/`assigned_to`
are added later by `generate_alerts` and are not read by any claim. -/
structure Alert where
  alert_id : String
  customer_id : String
  alert_type : String
  priority : String
  description : String
  details : String
  risk_level : String
deriving DecidableEq, Repr

/-- `AMLAlertEngine._determine_risk_level`. -/
def determine_risk_level (alert_type : AlertType) : String :=
  if alert_type = .PEP_DETECTED ∨ alert_type = .SANCTIONS_MATCH ∨
      alert_type = .FRAUD_INDICATOR then "CRITICAL"
  else if alert_type = .HIGH_RISK_CUSTOMER ∨ alert_type = .SUSPICIOUS_PATTERN then "HIGH"
  else "MEDIUM"

/-- `AMLAlertEngine._create_alert`; `uuid.uuid4()` becomes the explicit
`alert_id` argument. -/
def create_alert (alert_id customer_id : String) (alert_type : AlertType)
    (details : String) : Alert :=
  { alert_id := alert_id
    customer_id := customer_id
    alert_type := alert_type.value
    priority := alert_rules_priority alert_type
    description := alert_rules_description alert_type
    details := details
    risk_level := determine_risk_level alert_type }

/-- One enriched customer-profile row, restricted to the fields
`_evaluate_customer_alerts` reads.  `fraud_count`/`total_amount` are
`Option` because the source guards them with `'fraud_count' in customer`
and `'total_amount' in customer`. -/
structure Customer where
  customer_id : String
  enhanced_risk_score : ℚ
  is_pep : Bool
  pep_category : String
  occupation : String
  sanctions_risk : Bool
  nationality : String
  fraud_count : Option ℤ
  total_amount : Option ℚ
deriving DecidableEq, Repr

/-- First rule block of `_evaluate_customer_alerts` (High Risk Score
Alert): `critical_risk_score` branch, else `high_risk_score` branch. -/
def high_risk_rule (c : Customer) (id1 : String) : List Alert :=
  if critical_risk_score_threshold ≤ c.enhanced_risk_score then
    [create_alert id1 c.customer_id .HIGH_RISK_CUSTOMER
      ("Critical risk score: " ++ toString c.enhanced_risk_score)]
  else if high_risk_score_threshold ≤ c.enhanced_risk_score then
    [create_alert id1 c.customer_id .HIGH_RISK_CUSTOMER
      ("High risk score: " ++ toString c.enhanced_risk_score)]
  else []

/-- Second rule block of `_evaluate_customer_alerts` (PEP Alert). -/
def pep_rule (c : Customer) (id2 : String) : List Alert :=
  if c.is_pep && pep_alert_enabled then
    [create_alert id2 c.customer_id .PEP_DETECTED
      ("PEP Category: " ++ c.pep_category ++ ", Occupation: " ++ c.occupation)]
  else []

/-- Third rule block of `_evaluate_customer_alerts` (Sanctions Alert). -/
def sanctions_rule (c : Customer) (id3 : String) : List Alert :=
  if c.sanctions_risk && sanctions_alert_enabled then
    [create_alert id3 c.customer_id .SANCTIONS_MATCH
      ("Sanctioned jurisdiction: " ++ c.nationality)]
  else []

/-- Fourth rule block of `_evaluate_customer_alerts` (Fraud History
Alert), guarded by the field-presence check `'fraud_count' in customer`. -/
def fraud_rule (c : Customer) (id4 : String) : List Alert :=
  match c.fraud_count with
  | some n =>
    if fraud_count_threshold ≤ n then
      [create_alert id4 c.customer_id .FRAUD_INDICATOR
        ("Fraud history: " ++ toString n ++ " incidents")]
    else []
  | none => []

/-- Fifth rule block of `_evaluate_customer_alerts` (Large Transaction
Alert), guarded by `'total_amount' in customer`.  Python renders the
amount with `,`-separators and two decimals — a presentational
difference no claim reads. -/
def large_tx_rule (c : Customer) (id5 : String) : List Alert :=
  match c.total_amount with
  | some amt =>
    if large_transaction_threshold ≤ amt then
      [create_alert id5 c.customer_id .LARGE_TRANSACTION
        ("Large transaction volume: $" ++ toString amt)]
    else []
  | none => []

/-- `AMLAlertEngine._evaluate_customer_alerts`: the five rule blocks
append their alerts in source order.  Each `uuid.uuid4()` call becomes
one of the explicit id arguments. -/
def evaluate_customer_alerts (c : Customer)
    (id1 id2 id3 id4 id5 : String) : List Alert :=
  high_risk_rule c id1 ++ pep_rule c id2 ++ sanctions_rule c id3 ++
    fraud_rule c id4 ++ large_tx_rule c id5

end AlertEngine

namespace CaseManager

open AlertEngine (Alert)

/-- One row of `AMLCaseManager.cases`.  `last_updated`, `closed_at` and
`resolution` are columns pandas materialises on first assignment, so they
start as `Option.none`.  Timestamps are seconds (`ℤ`). -/
structure Case where
  case_id : String
  customer_id : String
  alert_id : String
  case_type : String
  priority : String
  status : String
  created_at : ℤ
  assigned_to : String
  due_date : ℤ
  description : String
  risk_level : String
  last_updated : Option ℤ
  closed_at : Option ℤ
  resolution : Option String
deriving DecidableEq, Repr

/-- One row of `AMLCaseManager.case_actions`. -/
structure CaseAction where
  action_id : String
  case_id : String
  action_type : String
  description : String
  analyst_name : String
  timestamp : ℤ
deriving DecidableEq, Repr

/-- The two DataFrames held by an `AMLCaseManager` instance. -/
structure CMState where
  cases : List Case
  case_actions : List CaseAction
deriving DecidableEq, Repr

/-- `AMLCaseManager._determine_case_type` (`.value` strings, with the
`CaseType.AML_INVESTIGATION` default). -/
def determine_case_type (alert_type : String) : String :=
  if alert_type = "PEP_DETECTED" then "PEP_REVIEW"
  else if alert_type = "SANCTIONS_MATCH" then "SANCTIONS_CHECK"
  else if alert_type = "FRAUD_INDICATOR" then "FRAUD_INVESTIGATION"
  else if alert_type = "HIGH_RISK_CUSTOMER" then "ENHANCED_DUE_DILIGENCE"
  else if alert_type = "LARGE_TRANSACTION" then "AML_INVESTIGATION"
  else if alert_type = "SUSPICIOUS_PATTERN" then "AML_INVESTIGATION"
  else "AML_INVESTIGATION"

/-- `AMLCaseManager._auto_assign_case`. -/
def auto_assign_case (priority : String) : String :=
  if priority = "CRITICAL" then "Senior_AML_Analyst"
  else if priority = "HIGH" then "AML_Analyst_Team"
  else "Junior_AML_Analyst"

/-- `AMLCaseManager.sla_hours` with the `.get(priority, 168)` default. -/
def sla_hours (priority : String) : ℤ :=
  if priority = "CRITICAL" then 4
  else if priority = "HIGH" then 24
  else if priority = "MEDIUM" then 72
  else if priority = "LOW" then 168
  else 168

/-- `AMLCaseManager._calculate_due_date`: it calls `datetime.now()`
itself (a second clock sample, distinct from the one stored in
`created_at`), here the explicit `t_now`; `timedelta(hours=h)` is
`3600*h` seconds. -/
def calculate_due_date (priority : String) (t_now : ℤ) : ℤ :=
  t_now + 3600 * sla_hours priority

/-- `AMLCaseManager._log_case_action`; `uuid.uuid4()` and
`datetime.now()` become the explicit `action_id` and `t` arguments. -/
def log_case_action (s : CMState) (action_id case_id action_type
    description analyst_name : String) (t : ℤ) : CMState :=
  { s with case_actions := s.case_actions ++
      [{ action_id := action_id
         case_id := case_id
         action_type := action_type
         description := description
         analyst_name := analyst_name
         timestamp := t }] }

/-- `AMLCaseManager.create_case_from_alert`.  The dict literal evaluates
`datetime.now()` for `created_at` (`t_created`), then `_calculate_due_date`
samples the clock again (`t_due`), and `_log_case_action` a third time
(`t_log`); `uuid.uuid4()` gives `case_uuid` and `action_uuid`.  Returns
the new state and the returned `case_id`. -/
def create_case_from_alert (s : CMState) (alert : Alert)
    (case_uuid action_uuid : String) (t_created t_due t_log : ℤ) :
    CMState × String :=
  let case : Case :=
    { case_id := case_uuid
      customer_id := alert.customer_id
      alert_id := alert.alert_id
      case_type := determine_case_type alert.alert_type
      priority := alert.priority
      status := "OPEN"
      created_at := t_created
      assigned_to := auto_assign_case alert.priority
      due_date := calculate_due_date alert.priority t_due
      description := "Investigation case for " ++ alert.alert_type ++ ": " ++ alert.details
      risk_level := alert.risk_level
      last_updated := none
      closed_at := none
      resolution := none }
  let s1 : CMState := { s with cases := s.cases ++ [case] }
  let s2 := log_case_action s1 action_uuid case.case_id "CASE_CREATED"
    "Case automatically created from alert" "SYSTEM" t_log
  (s2, case.case_id)

/-- `AMLCaseManager.update_case_status`.  The source guards on
`len(self.cases) > 0 and mask.any()` and otherwise returns silently;
`old_status` is read from the first matching row, then status and
`last_updated` are written on every matching row and a STATUS_CHANGED
action is logged.  `t_upd` is the `datetime.now()` of the `last_updated`
write, `t_log` the one inside `_log_case_action`. -/
def update_case_status (s : CMState) (case_id new_status notes : String)
    (action_uuid : String) (t_upd t_log : ℤ) : CMState :=
  match s.cases.find? (fun c => c.case_id = case_id) with
  | none => s
  | some c0 =>
    let s1 : CMState :=
      { s with cases := s.cases.map (fun c =>
          if c.case_id = case_id then
            { c with status := new_status, last_updated := some t_upd }
          else c) }
    log_case_action s1 action_uuid case_id "STATUS_CHANGED"
      ("Status changed from " ++ c0.status ++ " to " ++ new_status ++ ". " ++ notes)
      "SYSTEM" t_log

/-- `AMLCaseManager.assign_case` (same guard shape as
`update_case_status`). -/
def assign_case (s : CMState) (case_id analyst_name : String)
    (action_uuid : String) (t_upd t_log : ℤ) : CMState :=
  match s.cases.find? (fun c => c.case_id = case_id) with
  | none => s
  | some _ =>
    let s1 : CMState :=
      { s with cases := s.cases.map (fun c =>
          if c.case_id = case_id then
            { c with assigned_to := analyst_name, last_updated := some t_upd }
          else c) }
    log_case_action s1 action_uuid case_id "CASE_ASSIGNED"
      ("Case assigned to " ++ analyst_name) "SYSTEM" t_log

/-- `AMLCaseManager.add_case_notes`: unconditionally logs a NOTES_ADDED
action — no existence check on `case_id`. -/
def add_case_notes (s : CMState) (case_id notes analyst_name : String)
    (action_uuid : String) (t_log : ℤ) : CMState :=
  log_case_action s action_uuid case_id "NOTES_ADDED" notes analyst_name t_log

/-- `AMLCaseManager.close_case`: `update_case_status(..., "CLOSED")`,
then an unconditional CASE_CLOSED log, then (guarded) `closed_at` and
`resolution` writes. -/
def close_case (s : CMState) (case_id resolution analyst_name : String)
    (uuid1 uuid2 : String) (t_upd t_log1 t_log2 t_closed : ℤ) : CMState :=
  let s1 := update_case_status s case_id "CLOSED" "" uuid1 t_upd t_log1
  let s2 := log_case_action s1 uuid2 case_id "CASE_CLOSED"
    ("Case closed. Resolution: " ++ resolution) analyst_name t_log2
  match s2.cases.find? (fun c => c.case_id = case_id) with
  | none => s2
  | some _ =>
    { s2 with cases := s2.cases.map (fun c =>
        if c.case_id = case_id then
          { c with closed_at := some t_closed, resolution := some resolution }
        else c) }

/-- Error type the spec's §7 taxonomy names for case mutations. -/
inductive CMError where
  | caseNotFound
  | invalidTransition
deriving DecidableEq, Repr

/-- `Except`-typed view of `update_case_status`.  The source contains no
`raise` statement (no `CaseNotFoundError` or `InvalidTransitionError`
class exists anywhere in the repository), so every call — unknown id or
CLOSED case included — returns `.ok`. -/
def update_case_status_exc (s : CMState) (case_id new_status notes : String)
    (action_uuid : String) (t_upd t_log : ℤ) : Except CMError CMState :=
  Except.ok (update_case_status s case_id new_status notes action_uuid t_upd t_log)

/-- One call to a public `AMLCaseManager` method, with all environment
inputs (`uuid.uuid4()` results, `datetime.now()` samples) explicit. -/
inductive CMOp where
  | create (alert : Alert) (case_uuid action_uuid : String) (t_created t_due t_log : ℤ)
  | updateStatus (case_id new_status notes action_uuid : String) (t_upd t_log : ℤ)
  | assign (case_id analyst_name action_uuid : String) (t_upd t_log : ℤ)
  | addNotes (case_id notes analyst_name action_uuid : String) (t_log : ℤ)
  | close (case_id resolution analyst_name uuid1 uuid2 : String) (t_upd t_log1 t_log2 t_closed : ℤ)
deriving DecidableEq, Repr

/-- Execute one `AMLCaseManager` call. -/
def step (s : CMState) : CMOp → CMState
  | .create alert cu au tc td tl => (create_case_from_alert s alert cu au tc td tl).1
  | .updateStatus cid st notes au tu tl => update_case_status s cid st notes au tu tl
  | .assign cid an au tu tl => assign_case s cid an au tu tl
  | .addNotes cid notes an au tl => add_case_notes s cid notes an au tl
  | .close cid res an u1 u2 tu tl1 tl2 tcl => close_case s cid res an u1 u2 tu tl1 tl2 tcl

/-- Clock freshness: the timestamp `t` is strictly later than every
action already logged (`datetime.now()` is strictly increasing at
microsecond resolution between appends). -/
def LogFresh (s : CMState) (t : ℤ) : Prop :=
  ∀ a ∈ s.case_actions, a.timestamp < t

instance (s : CMState) (t : ℤ) : Decidable (LogFresh s t) := by
  unfold LogFresh; infer_instance

/-- Environment well-formedness of one call: clock samples used for
logging are fresh, `close_case` logs in call order, and a freshly drawn
`uuid.uuid4()` case id has never appeared in the action log. -/
def WFOp (s : CMState) : CMOp → Prop
  | .create _ cu _ _ _ tl => LogFresh s tl ∧ ∀ a ∈ s.case_actions, a.case_id ≠ cu
  | .updateStatus _ _ _ _ _ tl => LogFresh s tl
  | .assign _ _ _ _ tl => LogFresh s tl
  | .addNotes _ _ _ _ tl => LogFresh s tl
  | .close _ _ _ _ _ _ tl1 tl2 _ => LogFresh s tl1 ∧ LogFresh s tl2 ∧ tl1 < tl2

instance (s : CMState) (op : CMOp) : Decidable (WFOp s op) := by
  cases op <;> unfold WFOp <;> infer_instance

/-- Audit-trail invariant: every case of the case table has a
CASE_CREATED action that is earliest (by timestamp) among the actions
logged for its `case_id`, and strictly earlier than every action of any
other type for that `case_id`. -/
def AuditInv (s : CMState) : Prop :=
  ∀ c ∈ s.cases, ∃ a ∈ s.case_actions,
    a.case_id = c.case_id ∧ a.action_type = "CASE_CREATED" ∧
    (∀ b ∈ s.case_actions, b.case_id = c.case_id → a.timestamp ≤ b.timestamp) ∧
    (∀ b ∈ s.case_actions, b.case_id = c.case_id →
      b.action_type ≠ "CASE_CREATED" → a.timestamp < b.timestamp)

instance (s : CMState) : Decidable (AuditInv s) := by
  unfold AuditInv; infer_instance

end CaseManager

/-! ## Helper lemmas -/

namespace RiskEngine

lemma tx_type_scores_nonneg (t : String) : 0 ≤ tx_type_scores t := by
  unfold tx_type_scores; split_ifs <;> norm_num

lemma tx_type_scores_le (t : String) : tx_type_scores t ≤ 85 := by
  unfold tx_type_scores; split_ifs <;> norm_num

lemma type_score_nonneg (l : List Transaction) :
    0 ≤ calculate_transaction_type_score l := by
  unfold calculate_transaction_type_score
  have hsum : 0 ≤ (l.map (fun t => tx_type_scores t.type)).sum := by
    apply List.sum_nonneg
    intro x hx
    obtain ⟨t, _, rfl⟩ := List.mem_map.mp hx
    exact tx_type_scores_nonneg _
  have : (0 : ℚ) ≤ (l.length : ℚ) := by positivity
  exact le_min (div_nonneg hsum this) (by norm_num)

lemma type_score_le (l : List Transaction) :
    calculate_transaction_type_score l ≤ 100 := by
  unfold calculate_transaction_type_score
  exact min_le_right _ _

lemma amount_score_bounds (l : List Transaction) :
    0 ≤ calculate_amount_risk_score l ∧ calculate_amount_risk_score l ≤ 100 := by
  unfold calculate_amount_risk_score
  split_ifs <;> norm_num

lemma fraud_score_bounds (l : List Transaction) :
    0 ≤ calculate_fraud_history_score l ∧ calculate_fraud_history_score l ≤ 100 := by
  unfold calculate_fraud_history_score
  split_ifs <;> norm_num

lemma cash_score_bounds (l : List Transaction) :
    0 ≤ calculate_cash_pattern_score l ∧ calculate_cash_pattern_score l ≤ 100 := by
  unfold calculate_cash_pattern_score
  split_ifs <;> norm_num

lemma round2_bounds {q : ℚ} (h0 : 0 ≤ q) (h1 : q ≤ 100) :
    0 ≤ round2 q ∧ round2 q ≤ 100 := by
  unfold round2
  constructor
  · have hlt : q * 100 - 1 / 2 < ((round (q * 100) : ℤ) : ℚ) := sub_half_lt_round _
    have : (-1 : ℤ) < round (q * 100) := by
      have : (-1 : ℚ) < ((round (q * 100) : ℤ) : ℚ) := by nlinarith
      exact_mod_cast this
    have : (0 : ℚ) ≤ ((round (q * 100) : ℤ) : ℚ) := by exact_mod_cast this
    positivity
  · have hle : ((round (q * 100) : ℤ) : ℚ) ≤ q * 100 + 1 / 2 := round_le_add_half _
    have : round (q * 100) < (10001 : ℤ) := by
      have : ((round (q * 100) : ℤ) : ℚ) < 10001 := by nlinarith
      exact_mod_cast this
    have h10000 : round (q * 100) ≤ (10000 : ℤ) := by omega
    have : ((round (q * 100) : ℤ) : ℚ) ≤ 10000 := by exact_mod_cast h10000
    linarith

lemma category_rank_mono {x y : ℚ} (h : x ≤ y) :
    category_rank (get_risk_category x) ≤ category_rank (get_risk_category y) := by
  unfold get_risk_category
  split_ifs <;> simp_all [category_rank] <;> linarith

lemma calculate_customer_risk_score_empty :
    calculate_customer_risk_score [] =
      ({ total_score := 0,
         risk_category := "LOW",
         comp_transaction_type := 0,
         comp_amount_risk := 0,
         comp_fraud_history := 0,
         comp_cash_pattern := 0 } : RiskResult) := by
  have h1 : calculate_transaction_type_score ([] : List Transaction) = 0 := by
    simp [calculate_transaction_type_score]
  have h2 : calculate_amount_risk_score ([] : List Transaction) = 0 := by
    simp [calculate_amount_risk_score]
  have h3 : calculate_fraud_history_score ([] : List Transaction) = 0 := by
    simp [calculate_fraud_history_score]
  have h4 : calculate_cash_pattern_score ([] : List Transaction) = 0 := by
    simp [calculate_cash_pattern_score]
  unfold calculate_customer_risk_score
  rw [h1, h2, h3, h4]
  norm_num [round2, get_risk_category]

lemma weighted_total_bounds (l : List Transaction) :
    0 ≤ calculate_transaction_type_score l * 0.25 +
        calculate_amount_risk_score l * 0.30 +
        calculate_fraud_history_score l * 0.35 +
        calculate_cash_pattern_score l * 0.10 ∧
      calculate_transaction_type_score l * 0.25 +
        calculate_amount_risk_score l * 0.30 +
        calculate_fraud_history_score l * 0.35 +
        calculate_cash_pattern_score l * 0.10 ≤ 100 := by
  have t0 := type_score_nonneg l
  have t1 := type_score_le l
  obtain ⟨a0, a1⟩ := amount_score_bounds l
  obtain ⟨f0, f1⟩ := fraud_score_bounds l
  obtain ⟨c0, c1⟩ := cash_score_bounds l
  constructor <;> nlinarith

end RiskEngine

namespace AlertEngine

lemma mem_high_risk_rule {c : Customer} {id1 : String} {a : Alert}
    (h : a ∈ high_risk_rule c id1) :
    a.alert_type = "HIGH_RISK_CUSTOMER" ∧ a.priority = "HIGH" ∧
      a.risk_level = "HIGH" := by
  unfold high_risk_rule at h
  split_ifs at h <;> simp only [List.mem_singleton, List.not_mem_nil] at h
  · subst h; exact ⟨rfl, rfl, rfl⟩
  · subst h; exact ⟨rfl, rfl, rfl⟩

lemma mem_pep_rule {c : Customer} {id2 : String} {a : Alert}
    (h : a ∈ pep_rule c id2) :
    a.alert_type = "PEP_DETECTED" ∧ a.priority = "CRITICAL" ∧
      a.risk_level = "CRITICAL" := by
  unfold pep_rule at h
  split_ifs at h <;> simp only [List.mem_singleton, List.not_mem_nil] at h
  subst h; exact ⟨rfl, rfl, rfl⟩

lemma mem_sanctions_rule {c : Customer} {id3 : String} {a : Alert}
    (h : a ∈ sanctions_rule c id3) :
    a.alert_type = "SANCTIONS_MATCH" ∧ a.priority = "CRITICAL" ∧
      a.risk_level = "CRITICAL" := by
  unfold sanctions_rule at h
  split_ifs at h <;> simp only [List.mem_singleton, List.not_mem_nil] at h
  subst h; exact ⟨rfl, rfl, rfl⟩

lemma mem_fraud_rule {c : Customer} {id4 : String} {a : Alert}
    (h : a ∈ fraud_rule c id4) :
    a.alert_type = "FRAUD_INDICATOR" ∧ a.priority = "CRITICAL" ∧
      a.risk_level = "CRITICAL" := by
  unfold fraud_rule at h
  rcases hfc : c.fraud_count with _ | n <;> rw [hfc] at h <;> dsimp only at h
  · cases h
  · split_ifs at h <;> simp only [List.mem_singleton, List.not_mem_nil] at h
    subst h; exact ⟨rfl, rfl, rfl⟩

lemma mem_large_tx_rule {c : Customer} {id5 : String} {a : Alert}
    (h : a ∈ large_tx_rule c id5) :
    a.alert_type = "LARGE_TRANSACTION" ∧ a.priority = "MEDIUM" ∧
      a.risk_level = "MEDIUM" := by
  unfold large_tx_rule at h
  rcases hta : c.total_amount with _ | amt <;> rw [hta] at h <;> dsimp only at h
  · cases h
  · split_ifs at h <;> simp only [List.mem_singleton, List.not_mem_nil] at h
    subst h; exact ⟨rfl, rfl, rfl⟩

lemma high_risk_rule_length {c : Customer} {id1 : String}
    (h : 60 ≤ c.enhanced_risk_score) : (high_risk_rule c id1).length = 1 := by
  unfold high_risk_rule
  split_ifs with h1 h2
  · rfl
  · rfl
  · exact absurd h (by simpa [high_risk_score_threshold] using h2)

lemma pep_rule_length {c : Customer} {id2 : String}
    (h : c.is_pep = true) : (pep_rule c id2).length = 1 := by
  unfold pep_rule
  rw [if_pos (by simp [h, pep_alert_enabled])]
  rfl

end AlertEngine

namespace CaseManager

lemma logFresh_append {s : CMState} {act : CaseAction} {t : ℤ}
    (h : LogFresh s t) (hact : act.timestamp < t) :
    LogFresh { s with case_actions := s.case_actions ++ [act] } t := by
  intro a ha
  rcases List.mem_append.mp ha with ha | ha
  · exact h a ha
  · rcases List.mem_singleton.mp ha with rfl
    exact hact

lemma logFresh_cases {s : CMState} {cs : List Case} {t : ℤ}
    (h : LogFresh s t) : LogFresh { s with cases := cs } t := h

lemma auditInv_append_action {s : CMState} {act : CaseAction}
    (hInv : AuditInv s) (hfresh : LogFresh s act.timestamp) :
    AuditInv { s with case_actions := s.case_actions ++ [act] } := by
  intro c hc
  obtain ⟨a, ha, haid, hty, hle, hlt⟩ := hInv c hc
  refine ⟨a, List.mem_append_left _ ha, haid, hty, ?_, ?_⟩
  · intro b hb hbid
    rcases List.mem_append.mp hb with hb | hb
    · exact hle b hb hbid
    · rcases List.mem_singleton.mp hb with rfl
      exact le_of_lt (hfresh a ha)
  · intro b hb hbid _
    rcases List.mem_append.mp hb with hb | hb
    · exact hlt b hb hbid (by assumption)
    · rcases List.mem_singleton.mp hb with rfl
      exact hfresh a ha

lemma auditInv_map_cases {s : CMState} {f : Case → Case}
    (hid : ∀ c, (f c).case_id = c.case_id) (hInv : AuditInv s) :
    AuditInv { s with cases := s.cases.map f } := by
  intro c hc
  obtain ⟨c0, hc0, rfl⟩ := List.mem_map.mp hc
  obtain ⟨a, ha, haid, hty, hle, hlt⟩ := hInv c0 hc0
  refine ⟨a, ha, ?_, hty, ?_, ?_⟩
  · rw [hid]; exact haid
  · intro b hb hbid
    exact hle b hb (by rwa [hid] at hbid)
  · intro b hb hbid hbty
    exact hlt b hb (by rwa [hid] at hbid) hbty

lemma update_case_status_preserves {s : CMState}
    {case_id new_status notes action_uuid : String} {t_upd t_log : ℤ}
    (hInv : AuditInv s) (hfresh : LogFresh s t_log) :
    AuditInv (update_case_status s case_id new_status notes action_uuid t_upd t_log) := by
  unfold update_case_status log_case_action
  cases hfind : s.cases.find? (fun c => c.case_id = case_id) with
  | none => exact hInv
  | some c0 =>
    dsimp only
    refine auditInv_append_action (auditInv_map_cases ?_ hInv) (logFresh_cases hfresh)
    intro c
    by_cases h : c.case_id = case_id <;> simp [h]

lemma update_case_status_logFresh {s : CMState}
    {case_id new_status notes action_uuid : String} {t_upd t_log t : ℤ}
    (h : LogFresh s t) (hlt : t_log < t) :
    LogFresh (update_case_status s case_id new_status notes action_uuid t_upd t_log) t := by
  unfold update_case_status log_case_action
  cases hfind : s.cases.find? (fun c => c.case_id = case_id) with
  | none => exact h
  | some c0 =>
    dsimp only
    exact logFresh_append (logFresh_cases h) hlt

end CaseManager

/-! ## Claim theorems -/

section ClaimTheorems

open RiskEngine AlertEngine CaseManager

/-- C1: for every non-empty transaction set, the risk score returned by
`calculate_customer_risk_score` equals
0.25·type-score + 0.30·amount-score + 0.35·fraud-score + 0.10·cash-score
rounded to 2 decimals, lies in [0,100], and `risk_category` is the
deterministic, monotonic function of the total score given by the fixed
thresholds: ≥85 CRITICAL, ≥60 HIGH, ≥30 MEDIUM, else LOW. -/
theorem c1_risk_score_formula_range_and_category
    (l : List Transaction) (h : l ≠ []) :
    (calculate_customer_risk_score l).total_score =
      round2 (calculate_transaction_type_score l * 0.25 +
        calculate_amount_risk_score l * 0.30 +
        calculate_fraud_history_score l * 0.35 +
        calculate_cash_pattern_score l * 0.10) ∧
    0 ≤ (calculate_customer_risk_score l).total_score ∧
    (calculate_customer_risk_score l).total_score ≤ 100 ∧
    (calculate_customer_risk_score l).risk_category =
      get_risk_category (calculate_transaction_type_score l * 0.25 +
        calculate_amount_risk_score l * 0.30 +
        calculate_fraud_history_score l * 0.35 +
        calculate_cash_pattern_score l * 0.10) ∧
    (∀ x : ℚ, (85 ≤ x → get_risk_category x = "CRITICAL") ∧
      (60 ≤ x → x < 85 → get_risk_category x = "HIGH") ∧
      (30 ≤ x → x < 60 → get_risk_category x = "MEDIUM") ∧
      (x < 30 → get_risk_category x = "LOW")) ∧
    (∀ x y : ℚ, x ≤ y →
      category_rank (get_risk_category x) ≤ category_rank (get_risk_category y)) := by
  obtain ⟨hlo, hhi⟩ := weighted_total_bounds l
  obtain ⟨r0, r1⟩ := round2_bounds hlo hhi
  refine ⟨rfl, r0, r1, rfl, ?_, fun x y hxy => category_rank_mono hxy⟩
  intro x
  unfold get_risk_category
  refine ⟨fun h85 => by simp [h85], fun h60 h85 => ?_, fun h30 h60 => ?_, fun h30 => ?_⟩
  · rw [if_neg (by linarith), if_pos h60]
  · rw [if_neg (by linarith), if_neg (by linarith), if_pos h30]
  · rw [if_neg (by linarith), if_neg (by linarith), if_neg (by linarith)]

/-- Witness for C1 at a concrete one-element transaction set. -/
theorem c1_witness :
    ([({ type := "TRANSFER", amount := 1000, isFraud := false } : Transaction)] ≠ []) ∧
    ((calculate_customer_risk_score
        [({ type := "TRANSFER", amount := 1000, isFraud := false } : Transaction)]).total_score =
      round2 (calculate_transaction_type_score
          [({ type := "TRANSFER", amount := 1000, isFraud := false } : Transaction)] * 0.25 +
        calculate_amount_risk_score
          [({ type := "TRANSFER", amount := 1000, isFraud := false } : Transaction)] * 0.30 +
        calculate_fraud_history_score
          [({ type := "TRANSFER", amount := 1000, isFraud := false } : Transaction)] * 0.35 +
        calculate_cash_pattern_score
          [({ type := "TRANSFER", amount := 1000, isFraud := false } : Transaction)] * 0.10) ∧
      0 ≤ (calculate_customer_risk_score
        [({ type := "TRANSFER", amount := 1000, isFraud := false } : Transaction)]).total_score ∧
      (calculate_customer_risk_score
        [({ type := "TRANSFER", amount := 1000, isFraud := false } : Transaction)]).total_score ≤ 100 ∧
      (calculate_customer_risk_score
        [({ type := "TRANSFER", amount := 1000, isFraud := false } : Transaction)]).risk_category =
      get_risk_category (calculate_transaction_type_score
          [({ type := "TRANSFER", amount := 1000, isFraud := false } : Transaction)] * 0.25 +
        calculate_amount_risk_score
          [({ type := "TRANSFER", amount := 1000, isFraud := false } : Transaction)] * 0.30 +
        calculate_fraud_history_score
          [({ type := "TRANSFER", amount := 1000, isFraud := false } : Transaction)] * 0.35 +
        calculate_cash_pattern_score
          [({ type := "TRANSFER", amount := 1000, isFraud := false } : Transaction)] * 0.10) ∧
      (∀ x : ℚ, (85 ≤ x → get_risk_category x = "CRITICAL") ∧
        (60 ≤ x → x < 85 → get_risk_category x = "HIGH") ∧
        (30 ≤ x → x < 60 → get_risk_category x = "MEDIUM") ∧
        (x < 30 → get_risk_category x = "LOW")) ∧
      (∀ x y : ℚ, x ≤ y →
        category_rank (get_risk_category x) ≤ category_rank (get_risk_category y))) :=
  ⟨by decide, c1_risk_score_formula_range_and_category
    [({ type := "TRANSFER", amount := 1000, isFraud := false } : Transaction)] (by decide)⟩

/-- C2 counterexample: scoring the empty transaction set does NOT fail
with an `EmptyInputError` — the `Except`-typed view of the source
function returns `.ok` with the silent default
(`total_score = 0`, `risk_category = "LOW"`). -/
theorem c2_counterexample_empty_set_returns_ok :
    calculate_customer_risk_score_exc [] =
      Except.ok ({ total_score := 0,
                   risk_category := "LOW",
                   comp_transaction_type := 0,
                   comp_amount_risk := 0,
                   comp_fraud_history := 0,
                   comp_cash_pattern := 0 } : RiskResult) := by
  unfold calculate_customer_risk_score_exc
  rw [calculate_customer_risk_score_empty]

/-- C2 (amended): scoring a customer whose transaction set is empty does
not raise any error; it silently returns the default result —
`total_score` 0, `risk_category` LOW, all component scores 0. -/
theorem c2_empty_set_silent_default :
    calculate_customer_risk_score [] =
      ({ total_score := 0,
         risk_category := "LOW",
         comp_transaction_type := 0,
         comp_amount_risk := 0,
         comp_fraud_history := 0,
         comp_cash_pattern := 0 } : RiskResult) :=
  calculate_customer_risk_score_empty

/-- C4: for every alert built by `_create_alert`, `risk_level` is
determined solely by `alert_type` via the fixed table (PEP_DETECTED,
SANCTIONS_MATCH, FRAUD_INDICATOR → CRITICAL; HIGH_RISK_CUSTOMER,
SUSPICIOUS_PATTERN → HIGH; any other type → MEDIUM), independently of the
priority and of which threshold branch produced the alert. -/
theorem c4_risk_level_fixed_per_type (alert_id customer_id details : String)
    (t : AlertType) :
    (create_alert alert_id customer_id t details).risk_level =
      determine_risk_level t ∧
    determine_risk_level .PEP_DETECTED = "CRITICAL" ∧
    determine_risk_level .SANCTIONS_MATCH = "CRITICAL" ∧
    determine_risk_level .FRAUD_INDICATOR = "CRITICAL" ∧
    determine_risk_level .HIGH_RISK_CUSTOMER = "HIGH" ∧
    determine_risk_level .SUSPICIOUS_PATTERN = "HIGH" ∧
    determine_risk_level .LARGE_TRANSACTION = "MEDIUM" :=
  ⟨rfl, rfl, rfl, rfl, rfl, rfl, rfl⟩

/-- C5 counterexample: a profile with `enhanced_risk_score = 90` (and no
other triggering fact) yields exactly one alert —
HIGH_RISK_CUSTOMER with priority HIGH and risk_level HIGH, not the
risk_level CRITICAL the claim requires for scores ≥ 85. -/
theorem c5_counterexample_critical_branch_risk_level_is_high :
    ((evaluate_customer_alerts
        ({ customer_id := "C1",
           enhanced_risk_score := 90,
           is_pep := false,
           pep_category := "",
           occupation := "",
           sanctions_risk := false,
           nationality := "",
           fraud_count := none,
           total_amount := none } : Customer)
        "i1" "i2" "i3" "i4" "i5").map
      (fun a => (a.alert_type, a.priority, a.risk_level))) =
      [("HIGH_RISK_CUSTOMER", "HIGH", "HIGH")] ∧
    ∀ a ∈ evaluate_customer_alerts
        ({ customer_id := "C1",
           enhanced_risk_score := 90,
           is_pep := false,
           pep_category := "",
           occupation := "",
           sanctions_risk := false,
           nationality := "",
           fraud_count := none,
           total_amount := none } : Customer)
        "i1" "i2" "i3" "i4" "i5", a.risk_level ≠ "CRITICAL" := by
  constructor
  · rfl
  · intro a ha
    have : a.risk_level = "HIGH" := by
      have heq : evaluate_customer_alerts
          ({ customer_id := "C1",
             enhanced_risk_score := 90,
             is_pep := false,
             pep_category := "",
             occupation := "",
             sanctions_risk := false,
             nationality := "",
             fraud_count := none,
             total_amount := none } : Customer)
          "i1" "i2" "i3" "i4" "i5" =
          high_risk_rule
            ({ customer_id := "C1",
               enhanced_risk_score := 90,
               is_pep := false,
               pep_category := "",
               occupation := "",
               sanctions_risk := false,
               nationality := "",
               fraud_count := none,
               total_amount := none } : Customer) "i1" := by
        simp [evaluate_customer_alerts, pep_rule, sanctions_rule,
          fraud_rule, large_tx_rule]
      rw [heq] at ha
      exact (mem_high_risk_rule ha).2.2
    simp [this]

/-- C5 (amended): for every profile with `enhanced_risk_score ≥ 85`, the
evaluation emits exactly one HIGH_RISK_CUSTOMER alert, with priority HIGH
and risk_level HIGH; for 60 ≤ score < 85 the same holds (the two branches
differ only in the details text). -/
theorem c5_amended_high_risk_alert (c : Customer)
    (id1 id2 id3 id4 id5 : String) (h : 60 ≤ c.enhanced_risk_score) :
    ((evaluate_customer_alerts c id1 id2 id3 id4 id5).filter
        (fun a => a.alert_type == "HIGH_RISK_CUSTOMER")).length = 1 ∧
    ∀ a ∈ evaluate_customer_alerts c id1 id2 id3 id4 id5,
      a.alert_type = "HIGH_RISK_CUSTOMER" →
      a.priority = "HIGH" ∧ a.risk_level = "HIGH" := by
  constructor
  · unfold evaluate_customer_alerts
    rw [List.filter_append, List.filter_append, List.filter_append,
      List.filter_append]
    have h1 : (high_risk_rule c id1).filter
        (fun a => a.alert_type == "HIGH_RISK_CUSTOMER") =
        high_risk_rule c id1 := by
      apply List.filter_eq_self.mpr
      intro a ha
      simp [(mem_high_risk_rule ha).1]
    have h2 : (pep_rule c id2).filter
        (fun a => a.alert_type == "HIGH_RISK_CUSTOMER") = [] := by
      apply List.filter_eq_nil.mpr
      intro a ha
      simp [(mem_pep_rule ha).1]
    have h3 : (sanctions_rule c id3).filter
        (fun a => a.alert_type == "HIGH_RISK_CUSTOMER") = [] := by
      apply List.filter_eq_nil.mpr
      intro a ha
      simp [(mem_sanctions_rule ha).1]
    have h4 : (fraud_rule c id4).filter
        (fun a => a.alert_type == "HIGH_RISK_CUSTOMER") = [] := by
      apply List.filter_eq_nil.mpr
      intro a ha
      simp [(mem_fraud_rule ha).1]
    have h5 : (large_tx_rule c id5).filter
        (fun a => a.alert_type == "HIGH_RISK_CUSTOMER") = [] := by
      apply List.filter_eq_nil.mpr
      intro a ha
      simp [(mem_large_tx_rule ha).1]
    rw [h1, h2, h3, h4, h5]
    simp [high_risk_rule_length h]
  · intro a ha hty
    rcases List.mem_append.mp ha with ha | h5
    rcases List.mem_append.mp ha with ha | h4
    rcases List.mem_append.mp ha with ha | h3
    rcases List.mem_append.mp ha with h1 | h2
    · exact ⟨(mem_high_risk_rule h1).2.1, (mem_high_risk_rule h1).2.2⟩
    · rw [(mem_pep_rule h2).1] at hty; exact absurd hty (by decide)
    · rw [(mem_sanctions_rule h3).1] at hty; exact absurd hty (by decide)
    · rw [(mem_fraud_rule h4).1] at hty; exact absurd hty (by decide)
    · rw [(mem_large_tx_rule h5).1] at hty; exact absurd hty (by decide)

/-- Witness for C5 (amended) at a concrete profile with score 70. -/
theorem c5_amended_witness :
    ((60 : ℚ) ≤ (70 : ℚ)) ∧
    (((evaluate_customer_alerts
        ({ customer_id := "C2",
           enhanced_risk_score := 70,
           is_pep := false,
           pep_category := "",
           occupation := "",
           sanctions_risk := false,
           nationality := "",
           fraud_count := none,
           total_amount := none } : Customer)
        "i1" "i2" "i3" "i4" "i5").filter
        (fun a => a.alert_type == "HIGH_RISK_CUSTOMER")).length = 1 ∧
      ∀ a ∈ evaluate_customer_alerts
          ({ customer_id := "C2",
             enhanced_risk_score := 70,
             is_pep := false,
             pep_category := "",
             occupation := "",
             sanctions_risk := false,
             nationality := "",
             fraud_count := none,
             total_amount := none } : Customer)
          "i1" "i2" "i3" "i4" "i5",
        a.alert_type = "HIGH_RISK_CUSTOMER" →
        a.priority = "HIGH" ∧ a.risk_level = "HIGH") :=
  ⟨by norm_num, c5_amended_high_risk_alert
    ({ customer_id := "C2",
       enhanced_risk_score := 70,
       is_pep := false,
       pep_category := "",
       occupation := "",
       sanctions_risk := false,
       nationality := "",
       fraud_count := none,
       total_amount := none } : Customer)
    "i1" "i2" "i3" "i4" "i5" (by norm_num)⟩

/-- C6: for every profile with `is_pep = true`, one evaluation pass
yields exactly one PEP_DETECTED alert, and it has priority CRITICAL and
risk_level CRITICAL, regardless of the values of all other fields. -/
theorem c6_pep_always_one_critical_alert (c : Customer)
    (id1 id2 id3 id4 id5 : String) (h : c.is_pep = true) :
    ((evaluate_customer_alerts c id1 id2 id3 id4 id5).filter
        (fun a => a.alert_type == "PEP_DETECTED")).length = 1 ∧
    ∀ a ∈ evaluate_customer_alerts c id1 id2 id3 id4 id5,
      a.alert_type = "PEP_DETECTED" →
      a.priority = "CRITICAL" ∧ a.risk_level = "CRITICAL" := by
  constructor
  · unfold evaluate_customer_alerts
    rw [List.filter_append, List.filter_append, List.filter_append,
      List.filter_append]
    have h1 : (high_risk_rule c id1).filter
        (fun a => a.alert_type == "PEP_DETECTED") = [] := by
      apply List.filter_eq_nil.mpr
      intro a ha
      simp [(mem_high_risk_rule ha).1]
    have h2 : (pep_rule c id2).filter
        (fun a => a.alert_type == "PEP_DETECTED") = pep_rule c id2 := by
      apply List.filter_eq_self.mpr
      intro a ha
      simp [(mem_pep_rule ha).1]
    have h3 : (sanctions_rule c id3).filter
        (fun a => a.alert_type == "PEP_DETECTED") = [] := by
      apply List.filter_eq_nil.mpr
      intro a ha
      simp [(mem_sanctions_rule ha).1]
    have h4 : (fraud_rule c id4).filter
        (fun a => a.alert_type == "PEP_DETECTED") = [] := by
      apply List.filter_eq_nil.mpr
      intro a ha
      simp [(mem_fraud_rule ha).1]
    have h5 : (large_tx_rule c id5).filter
        (fun a => a.alert_type == "PEP_DETECTED") = [] := by
      apply List.filter_eq_nil.mpr
      intro a ha
      simp [(mem_large_tx_rule ha).1]
    rw [h1, h2, h3, h4, h5]
    simp [pep_rule_length h]
  · intro a ha hty
    rcases List.mem_append.mp ha with ha | h5
    rcases List.mem_append.mp ha with ha | h4
    rcases List.mem_append.mp ha with ha | h3
    rcases List.mem_append.mp ha with h1 | h2
    · rw [(mem_high_risk_rule h1).1] at hty; exact absurd hty (by decide)
    · exact ⟨(mem_pep_rule h2).2.1, (mem_pep_rule h2).2.2⟩
    · rw [(mem_sanctions_rule h3).1] at hty; exact absurd hty (by decide)
    · rw [(mem_fraud_rule h4).1] at hty; exact absurd hty (by decide)
    · rw [(mem_large_tx_rule h5).1] at hty; exact absurd hty (by decide)

/-- Witness for C6 at a concrete PEP profile. -/
theorem c6_witness :
    (({ customer_id := "C3",
        enhanced_risk_score := 10,
        is_pep := true,
        pep_category := "HEAD_OF_STATE",
        occupation := "Minister",
        sanctions_risk := false,
        nationality := "XX",
        fraud_count := none,
        total_amount := none } : Customer).is_pep = true) ∧
    (((evaluate_customer_alerts
        ({ customer_id := "C3",
           enhanced_risk_score := 10,
           is_pep := true,
           pep_category := "HEAD_OF_STATE",
           occupation := "Minister",
           sanctions_risk := false,
           nationality := "XX",
           fraud_count := none,
           total_amount := none } : Customer)
        "j1" "j2" "j3" "j4" "j5").filter
        (fun a => a.alert_type == "PEP_DETECTED")).length = 1 ∧
      ∀ a ∈ evaluate_customer_alerts
          ({ customer_id := "C3",
             enhanced_risk_score := 10,
             is_pep := true,
             pep_category := "HEAD_OF_STATE",
             occupation := "Minister",
             sanctions_risk := false,
             nationality := "XX",
             fraud_count := none,
             total_amount := none } : Customer)
          "j1" "j2" "j3" "j4" "j5",
        a.alert_type = "PEP_DETECTED" →
        a.priority = "CRITICAL" ∧ a.risk_level = "CRITICAL") :=
  ⟨rfl, c6_pep_always_one_critical_alert
    ({ customer_id := "C3",
       enhanced_risk_score := 10,
       is_pep := true,
       pep_category := "HEAD_OF_STATE",
       occupation := "Minister",
       sanctions_risk := false,
       nationality := "XX",
       fraud_count := none,
       total_amount := none } : Customer)
    "j1" "j2" "j3" "j4" "j5" rfl⟩

/-- C9: for every case of the case table, the earliest CaseAction for its
case_id (by timestamp) has action_type CASE_CREATED, and a CASE_CREATED
action exists strictly before any action of any other type for that
case_id; this invariant is preserved by every CaseManager operation
(create_case_from_alert, update_case_status, assign_case, add_case_notes,
close_case), under the environment facts that `datetime.now()` is
strictly increasing and `uuid.uuid4()` is fresh. -/
theorem c9_audit_trail_invariant_preserved (s : CMState) (op : CMOp)
    (hInv : AuditInv s) (hwf : WFOp s op) : AuditInv (step s op) := by
  cases op with
  | create alert cu au tc td tl =>
    obtain ⟨hfresh, hcu⟩ := hwf
    intro c hc
    simp only [step, create_case_from_alert, log_case_action] at hc ⊢
    rcases List.mem_append.mp hc with hcold | hcnew
    · obtain ⟨a, ha, haid, hty, hle, hlt⟩ := hInv c hcold
      refine ⟨a, List.mem_append_left _ ha, haid, hty, ?_, ?_⟩
      · intro b hb hbid
        rcases List.mem_append.mp hb with hb | hb
        · exact hle b hb hbid
        · rcases List.mem_singleton.mp hb with rfl
          exact le_of_lt (hfresh a ha)
      · intro b hb hbid _
        rcases List.mem_append.mp hb with hb | hb
        · exact hlt b hb hbid (by assumption)
        · rcases List.mem_singleton.mp hb with rfl
          exact hfresh a ha
    · rcases List.mem_singleton.mp hcnew with rfl
      refine ⟨_, List.mem_append_right _ (List.mem_singleton.mpr rfl), rfl, rfl, ?_, ?_⟩
      · intro b hb hbid
        rcases List.mem_append.mp hb with hb | hb
        · exact absurd hbid (hcu b hb)
        · rcases List.mem_singleton.mp hb with rfl
          exact le_refl _
      · intro b hb hbid hbty
        rcases List.mem_append.mp hb with hb | hb
        · exact absurd hbid (hcu b hb)
        · rcases List.mem_singleton.mp hb with rfl
          exact absurd rfl hbty
  | updateStatus cid st notes au tu tl =>
    exact update_case_status_preserves hInv hwf
  | assign cid an au tu tl =>
    have hfresh : LogFresh s tl := hwf
    simp only [step, assign_case, log_case_action]
    cases hfind : s.cases.find? (fun c => c.case_id = cid) with
    | none => exact hInv
    | some c0 =>
      dsimp only
      refine auditInv_append_action (auditInv_map_cases ?_ hInv) (logFresh_cases hfresh)
      intro c
      by_cases h : c.case_id = cid <;> simp [h]
  | addNotes cid notes an au tl =>
    have hfresh : LogFresh s tl := hwf
    simp only [step, add_case_notes, log_case_action]
    exact auditInv_append_action hInv hfresh
  | close cid res an u1 u2 tu tl1 tl2 tcl =>
    obtain ⟨h1, h2, h12⟩ := hwf
    simp only [step, close_case, log_case_action]
    have hInv1 : AuditInv (update_case_status s cid "CLOSED" "" u1 tu tl1) :=
      update_case_status_preserves hInv h1
    have hfresh2 : LogFresh (update_case_status s cid "CLOSED" "" u1 tu tl1) tl2 :=
      update_case_status_logFresh h2 h12
    have hInv2 : AuditInv
        { update_case_status s cid "CLOSED" "" u1 tu tl1 with
          case_actions := (update_case_status s cid "CLOSED" "" u1 tu tl1).case_actions ++
            [{ action_id := u2, case_id := cid, action_type := "CASE_CLOSED",
               description := "Case closed. Resolution: " ++ res,
               analyst_name := an, timestamp := tl2 }] } :=
      auditInv_append_action hInv1 hfresh2
    cases hfind : ({ update_case_status s cid "CLOSED" "" u1 tu tl1 with
        case_actions := (update_case_status s cid "CLOSED" "" u1 tu tl1).case_actions ++
          [{ action_id := u2, case_id := cid, action_type := "CASE_CLOSED",
             description := "Case closed. Resolution: " ++ res,
             analyst_name := an, timestamp := tl2 }] } : CMState).cases.find?
        (fun c => c.case_id = cid) with
    | none => exact hInv2
    | some c1 =>
      refine auditInv_map_cases ?_ hInv2
      intro c
      by_cases h : c.case_id = cid <;> simp [h]

/-- Witness for C9: the invariant holds for the empty manager state and
is preserved by a concrete `add_case_notes` call. -/
theorem c9_witness :
    AuditInv ({ cases := [], case_actions := [] } : CMState) ∧
    WFOp ({ cases := [], case_actions := [] } : CMState)
      (CMOp.addNotes "K1" "note" "Analyst" "U1" 5) ∧
    AuditInv (step ({ cases := [], case_actions := [] } : CMState)
      (CMOp.addNotes "K1" "note" "Analyst" "U1" 5)) :=
  ⟨by decide, by decide,
    c9_audit_trail_invariant_preserved
      ({ cases := [], case_actions := [] } : CMState)
      (CMOp.addNotes "K1" "note" "Analyst" "U1" 5) (by decide) (by decide)⟩

/-- C3 counterexample: on a case whose status is CLOSED,
`update_case_status` does not fail and does not leave the case unchanged —
it overwrites the status (here CLOSED → IN_PROGRESS) and returns
normally (`.ok`, never an `InvalidTransitionError`). -/
theorem c3_counterexample_closed_case_is_mutated :
    ((update_case_status
        ({ cases := [{ case_id := "K1",
                       customer_id := "CU",
                       alert_id := "A1",
                       case_type := "AML_INVESTIGATION",
                       priority := "HIGH",
                       status := "CLOSED",
                       created_at := 0,
                       assigned_to := "AML_Analyst_Team",
                       due_date := 86400,
                       description := "",
                       risk_level := "HIGH",
                       last_updated := none,
                       closed_at := some 10,
                       resolution := some "done" }],
           case_actions := [] } : CMState)
        "K1" "IN_PROGRESS" "reopen" "U1" 20 21).cases.map
      (fun c => c.status)) = ["IN_PROGRESS"] ∧
    ∀ e : CMError, update_case_status_exc
        ({ cases := [{ case_id := "K1",
                       customer_id := "CU",
                       alert_id := "A1",
                       case_type := "AML_INVESTIGATION",
                       priority := "HIGH",
                       status := "CLOSED",
                       created_at := 0,
                       assigned_to := "AML_Analyst_Team",
                       due_date := 86400,
                       description := "",
                       risk_level := "HIGH",
                       last_updated := none,
                       closed_at := some 10,
                       resolution := some "done" }],
           case_actions := [] } : CMState)
        "K1" "IN_PROGRESS" "reopen" "U1" 20 21 ≠ Except.error e := by
  refine ⟨by decide, fun e h => ?_⟩
  exact Except.noConfusion h

/-- C3 (amended): `update_case_status` on a case in status CLOSED behaves
exactly as on any other case — last write wins: it overwrites the status
and `last_updated`, appends a STATUS_CHANGED action, and returns normally;
no `InvalidTransitionError` exists. -/
theorem c3_amended_closed_case_last_write_wins (s : CMState) (c0 : Case)
    (case_id new_status notes action_uuid : String) (t_upd t_log : ℤ)
    (hfind : s.cases.find? (fun c => c.case_id = case_id) = some c0)
    (hclosed : c0.status = "CLOSED") :
    (update_case_status s case_id new_status notes action_uuid t_upd t_log).cases =
      s.cases.map (fun c =>
        if c.case_id = case_id then
          { c with status := new_status, last_updated := some t_upd }
        else c) ∧
    (update_case_status s case_id new_status notes action_uuid t_upd t_log).case_actions =
      s.case_actions ++
        [{ action_id := action_uuid,
           case_id := case_id,
           action_type := "STATUS_CHANGED",
           description := "Status changed from " ++ c0.status ++ " to " ++
             new_status ++ ". " ++ notes,
           analyst_name := "SYSTEM",
           timestamp := t_log }] ∧
    ∀ e : CMError, update_case_status_exc s case_id new_status notes
        action_uuid t_upd t_log ≠ Except.error e := by
  unfold update_case_status_exc update_case_status log_case_action
  rw [hfind]
  exact ⟨rfl, rfl, fun e h => Except.noConfusion h⟩

/-- Witness for C3 (amended) at a concrete CLOSED case. -/
theorem c3_amended_witness :
    (({ cases := [{ case_id := "K1",
                    customer_id := "CU",
                    alert_id := "A1",
                    case_type := "AML_INVESTIGATION",
                    priority := "HIGH",
                    status := "CLOSED",
                    created_at := 0,
                    assigned_to := "AML_Analyst_Team",
                    due_date := 86400,
                    description := "",
                    risk_level := "HIGH",
                    last_updated := none,
                    closed_at := some 10,
                    resolution := some "done" }],
        case_actions := [] } : CMState).cases.find?
      (fun c => c.case_id = "K1") = some
        ({ case_id := "K1",
           customer_id := "CU",
           alert_id := "A1",
           case_type := "AML_INVESTIGATION",
           priority := "HIGH",
           status := "CLOSED",
           created_at := 0,
           assigned_to := "AML_Analyst_Team",
           due_date := 86400,
           description := "",
           risk_level := "HIGH",
           last_updated := none,
           closed_at := some 10,
           resolution := some "done" } : Case)) ∧
    (({ case_id := "K1",
        customer_id := "CU",
        alert_id := "A1",
        case_type := "AML_INVESTIGATION",
        priority := "HIGH",
        status := "CLOSED",
        created_at := 0,
        assigned_to := "AML_Analyst_Team",
        due_date := 86400,
        description := "",
        risk_level := "HIGH",
        last_updated := none,
        closed_at := some 10,
        resolution := some "done" } : Case).status = "CLOSED") ∧
    ((update_case_status
        ({ cases := [{ case_id := "K1",
                       customer_id := "CU",
                       alert_id := "A1",
                       case_type := "AML_INVESTIGATION",
                       priority := "HIGH",
                       status := "CLOSED",
                       created_at := 0,
                       assigned_to := "AML_Analyst_Team",
                       due_date := 86400,
                       description := "",
                       risk_level := "HIGH",
                       last_updated := none,
                       closed_at := some 10,
                       resolution := some "done" }],
           case_actions := [] } : CMState)
        "K1" "IN_PROGRESS" "reopen" "U1" 20 21).cases =
      ({ cases := [{ case_id := "K1",
                     customer_id := "CU",
                     alert_id := "A1",
                     case_type := "AML_INVESTIGATION",
                     priority := "HIGH",
                     status := "CLOSED",
                     created_at := 0,
                     assigned_to := "AML_Analyst_Team",
                     due_date := 86400,
                     description := "",
                     risk_level := "HIGH",
                     last_updated := none,
                     closed_at := some 10,
                     resolution := some "done" }],
         case_actions := [] } : CMState).cases.map (fun c =>
          if c.case_id = "K1" then
            { c with status := "IN_PROGRESS", last_updated := some 20 }
          else c) ∧
      (update_case_status
        ({ cases := [{ case_id := "K1",
                       customer_id := "CU",
                       alert_id := "A1",
                       case_type := "AML_INVESTIGATION",
                       priority := "HIGH",
                       status := "CLOSED",
                       created_at := 0,
                       assigned_to := "AML_Analyst_Team",
                       due_date := 86400,
                       description := "",
                       risk_level := "HIGH",
                       last_updated := none,
                       closed_at := some 10,
                       resolution := some "done" }],
           case_actions := [] } : CMState)
        "K1" "IN_PROGRESS" "reopen" "U1" 20 21).case_actions =
      ({ cases := [{ case_id := "K1",
                     customer_id := "CU",
                     alert_id := "A1",
                     case_type := "AML_INVESTIGATION",
                     priority := "HIGH",
                     status := "CLOSED",
                     created_at := 0,
                     assigned_to := "AML_Analyst_Team",
                     due_date := 86400,
                     description := "",
                     risk_level := "HIGH",
                     last_updated := none,
                     closed_at := some 10,
                     resolution := some "done" }],
         case_actions := [] } : CMState).case_actions ++
        [{ action_id := "U1",
           case_id := "K1",
           action_type := "STATUS_CHANGED",
           description := "Status changed from " ++ "CLOSED" ++ " to " ++
             "IN_PROGRESS" ++ ". " ++ "reopen",
           analyst_name := "SYSTEM",
           timestamp := 21 }] ∧
      ∀ e : CMError, update_case_status_exc
        ({ cases := [{ case_id := "K1",
                       customer_id := "CU",
                       alert_id := "A1",
                       case_type := "AML_INVESTIGATION",
                       priority := "HIGH",
                       status := "CLOSED",
                       created_at := 0,
                       assigned_to := "AML_Analyst_Team",
                       due_date := 86400,
                       description := "",
                       risk_level := "HIGH",
                       last_updated := none,
                       closed_at := some 10,
                       resolution := some "done" }],
           case_actions := [] } : CMState)
        "K1" "IN_PROGRESS" "reopen" "U1" 20 21 ≠ Except.error e) :=
  ⟨rfl, rfl,
    c3_amended_closed_case_last_write_wins
      ({ cases := [{ case_id := "K1",
                     customer_id := "CU",
                     alert_id := "A1",
                     case_type := "AML_INVESTIGATION",
                     priority := "HIGH",
                     status := "CLOSED",
                     created_at := 0,
                     assigned_to := "AML_Analyst_Team",
                     due_date := 86400,
                     description := "",
                     risk_level := "HIGH",
                     last_updated := none,
                     closed_at := some 10,
                     resolution := some "done" }],
         case_actions := [] } : CMState)
      ({ case_id := "K1",
         customer_id := "CU",
         alert_id := "A1",
         case_type := "AML_INVESTIGATION",
         priority := "HIGH",
         status := "CLOSED",
         created_at := 0,
         assigned_to := "AML_Analyst_Team",
         due_date := 86400,
         description := "",
         risk_level := "HIGH",
         last_updated := none,
         closed_at := some 10,
         resolution := some "done" } : Case)
      "K1" "IN_PROGRESS" "reopen" "U1" 20 21 rfl rfl⟩

/-- C7 counterexample: `create_case_from_alert` samples `datetime.now()`
once for `created_at` and again inside `_calculate_due_date`; when the
clock advances between the two samples (here 0 → 1 second), the created
case has `due_date − created_at = SLA + 1 s`, not exactly SLA. -/
theorem c7_counterexample_due_date_clock_skew :
    ((create_case_from_alert
        ({ cases := [], case_actions := [] } : CMState)
        ({ alert_id := "AL1",
           customer_id := "CU",
           alert_type := "HIGH_RISK_CUSTOMER",
           priority := "CRITICAL",
           description := "",
           details := "",
           risk_level := "HIGH" } : Alert)
        "K2" "A2" 0 1 2).1.cases.map
      (fun c => (c.created_at, c.due_date))) = [(0, 14401)] ∧
    (14401 : ℤ) ≠ 0 + 3600 * sla_hours "CRITICAL" := by
  exact ⟨by decide, by decide⟩

/-- C7 (amended): the created case satisfies
`due_date = t₂ + 3600·sla_hours(priority)` where `t₂` is the clock sample
taken inside `_calculate_due_date`; when that sample coincides with the
`created_at` sample (both equal to `t` below), `due_date = created_at +
SLA(priority)` exactly, with SLA hours CRITICAL=4, HIGH=24, MEDIUM=72,
LOW=168, and 168 the default for any unrecognized priority. -/
theorem c7_amended_due_date_sla (s : CMState) (alert : Alert)
    (case_uuid action_uuid : String) (t t_log : ℤ) :
    (∃ c : Case,
      (create_case_from_alert s alert case_uuid action_uuid t t t_log).1.cases =
        s.cases ++ [c] ∧
      c.created_at = t ∧
      c.due_date = c.created_at + 3600 * sla_hours alert.priority) ∧
    sla_hours "CRITICAL" = 4 ∧ sla_hours "HIGH" = 24 ∧
    sla_hours "MEDIUM" = 72 ∧ sla_hours "LOW" = 168 ∧
    (∀ p : String, p ≠ "CRITICAL" → p ≠ "HIGH" → p ≠ "MEDIUM" → p ≠ "LOW" →
      sla_hours p = 168) := by
  refine ⟨⟨_, rfl, rfl, rfl⟩, rfl, rfl, rfl, rfl, ?_⟩
  intro p hp1 hp2 hp3 hp4
  unfold sla_hours
  rw [if_neg hp1, if_neg hp2, if_neg hp3, if_neg hp4]

/-- C8 counterexample: `update_case_status` with a `case_id` absent from
the case table does NOT fail with a `CaseNotFoundError` — it returns
normally (`.ok`) with the state unchanged. -/
theorem c8_counterexample_unknown_case_silent :
    update_case_status
        ({ cases := [{ case_id := "K1",
                       customer_id := "CU",
                       alert_id := "A1",
                       case_type := "AML_INVESTIGATION",
                       priority := "LOW",
                       status := "OPEN",
                       created_at := 0,
                       assigned_to := "Junior_AML_Analyst",
                       due_date := 604800,
                       description := "",
                       risk_level := "MEDIUM",
                       last_updated := none,
                       closed_at := none,
                       resolution := none }],
           case_actions := [] } : CMState)
        "MISSING" "OPEN" "" "U8" 5 6 =
      ({ cases := [{ case_id := "K1",
                     customer_id := "CU",
                     alert_id := "A1",
                     case_type := "AML_INVESTIGATION",
                     priority := "LOW",
                     status := "OPEN",
                     created_at := 0,
                     assigned_to := "Junior_AML_Analyst",
                     due_date := 604800,
                     description := "",
                     risk_level := "MEDIUM",
                     last_updated := none,
                     closed_at := none,
                     resolution := none }],
         case_actions := [] } : CMState) ∧
    ∀ e : CMError, update_case_status_exc
        ({ cases := [{ case_id := "K1",
                       customer_id := "CU",
                       alert_id := "A1",
                       case_type := "AML_INVESTIGATION",
                       priority := "LOW",
                       status := "OPEN",
                       created_at := 0,
                       assigned_to := "Junior_AML_Analyst",
                       due_date := 604800,
                       description := "",
                       risk_level := "MEDIUM",
                       last_updated := none,
                       closed_at := none,
                       resolution := none }],
           case_actions := [] } : CMState)
        "MISSING" "OPEN" "" "U8" 5 6 ≠ Except.error e := by
  exact ⟨rfl, fun e h => Except.noConfusion h⟩

/-- C8 (amended): for every `case_id` not present in the case table,
`update_case_status` performs no mutation of the case table or the action
log — it silently returns the state unchanged (`.ok`), rather than
failing with a `CaseNotFoundError`. -/
theorem c8_amended_unknown_case_noop (s : CMState)
    (case_id new_status notes action_uuid : String) (t_upd t_log : ℤ)
    (h : ∀ c ∈ s.cases, c.case_id ≠ case_id) :
    update_case_status s case_id new_status notes action_uuid t_upd t_log = s ∧
    update_case_status_exc s case_id new_status notes action_uuid t_upd t_log =
      Except.ok s := by
  have hf : s.cases.find? (fun c => c.case_id = case_id) = none := by
    rw [List.find?_eq_none]
    intro c hc
    simp [h c hc]
  constructor
  · unfold update_case_status
    rw [hf]
  · unfold update_case_status_exc update_case_status
    rw [hf]

/-- Witness for C8 (amended) at a concrete state and unknown id. -/
theorem c8_amended_witness :
    (∀ c ∈ ({ cases := [{ case_id := "K1",
                          customer_id := "CU",
                          alert_id := "A1",
                          case_type := "AML_INVESTIGATION",
                          priority := "LOW",
                          status := "OPEN",
                          created_at := 0,
                          assigned_to := "Junior_AML_Analyst",
                          due_date := 604800,
                          description := "",
                          risk_level := "MEDIUM",
                          last_updated := none,
                          closed_at := none,
                          resolution := none }],
              case_actions := [] } : CMState).cases,
        c.case_id ≠ "MISSING") ∧
    (update_case_status
        ({ cases := [{ case_id := "K1",
                       customer_id := "CU",
                       alert_id := "A1",
                       case_type := "AML_INVESTIGATION",
                       priority := "LOW",
                       status := "OPEN",
                       created_at := 0,
                       assigned_to := "Junior_AML_Analyst",
                       due_date := 604800,
                       description := "",
                       risk_level := "MEDIUM",
                       last_updated := none,
                       closed_at := none,
                       resolution := none }],
           case_actions := [] } : CMState)
        "MISSING" "X" "n" "U8" 5 6 =
      ({ cases := [{ case_id := "K1",
                     customer_id := "CU",
                     alert_id := "A1",
                     case_type := "AML_INVESTIGATION",
                     priority := "LOW",
                     status := "OPEN",
                     created_at := 0,
                     assigned_to := "Junior_AML_Analyst",
                     due_date := 604800,
                     description := "",
                     risk_level := "MEDIUM",
                     last_updated := none,
                     closed_at := none,
                     resolution := none }],
         case_actions := [] } : CMState) ∧
      update_case_status_exc
        ({ cases := [{ case_id := "K1",
                       customer_id := "CU",
                       alert_id := "A1",
                       case_type := "AML_INVESTIGATION",
                       priority := "LOW",
                       status := "OPEN",
                       created_at := 0,
                       assigned_to := "Junior_AML_Analyst",
                       due_date := 604800,
                       description := "",
                       risk_level := "MEDIUM",
                       last_updated := none,
                       closed_at := none,
                       resolution := none }],
           case_actions := [] } : CMState)
        "MISSING" "X" "n" "U8" 5 6 =
      Except.ok
        ({ cases := [{ case_id := "K1",
                       customer_id := "CU",
                       alert_id := "A1",
                       case_type := "AML_INVESTIGATION",
                       priority := "LOW",
                       status := "OPEN",
                       created_at := 0,
                       assigned_to := "Junior_AML_Analyst",
                       due_date := 604800,
                       description := "",
                       risk_level := "MEDIUM",
                       last_updated := none,
                       closed_at := none,
                       resolution := none }],
           case_actions := [] } : CMState)) :=
  ⟨by decide,
    c8_amended_unknown_case_noop
      ({ cases := [{ case_id := "K1",
                     customer_id := "CU",
                     alert_id := "A1",
                     case_type := "AML_INVESTIGATION",
                     priority := "LOW",
                     status := "OPEN",
                     created_at := 0,
                     assigned_to := "Junior_AML_Analyst",
                     due_date := 604800,
                     description := "",
                     risk_level := "MEDIUM",
                     last_updated := none,
                     closed_at := none,
                     resolution := none }],
         case_actions := [] } : CMState)
      "MISSING" "X" "n" "U8" 5 6 (by decide)⟩

/-- C10: for every `case_id` — in particular one for which no case exists
in the case table — `add_case_notes` returns normally (it is a total
function with no lookup) and appends exactly one NOTES_ADDED action for
that `case_id`; likewise `close_case` on an unknown `case_id` appends a
CASE_CLOSED action while leaving the case table unchanged. -/
theorem c10_unknown_id_notes_and_close_append (s : CMState)
    (cid notes analyst au res an u1 u2 : String)
    (t t_upd t_log1 t_log2 t_closed : ℤ)
    (h : ∀ c ∈ s.cases, c.case_id ≠ cid) :
    add_case_notes s cid notes analyst au t =
      ({ cases := s.cases,
         case_actions := s.case_actions ++
           [{ action_id := au,
              case_id := cid,
              action_type := "NOTES_ADDED",
              description := notes,
              analyst_name := analyst,
              timestamp := t }] } : CMState) ∧
    close_case s cid res an u1 u2 t_upd t_log1 t_log2 t_closed =
      ({ cases := s.cases,
         case_actions := s.case_actions ++
           [{ action_id := u2,
              case_id := cid,
              action_type := "CASE_CLOSED",
              description := "Case closed. Resolution: " ++ res,
              analyst_name := an,
              timestamp := t_log2 }] } : CMState) := by
  have hf : s.cases.find? (fun c => c.case_id = cid) = none := by
    rw [List.find?_eq_none]
    intro c hc
    simp [h c hc]
  have hupd : update_case_status s cid "CLOSED" "" u1 t_upd t_log1 = s := by
    unfold update_case_status
    rw [hf]
  constructor
  · rfl
  · unfold close_case
    rw [hupd]
    unfold log_case_action
    dsimp only
    rw [hf]

/-- Witness for C10 at the empty manager state. -/
theorem c10_witness :
    (∀ c ∈ ({ cases := [], case_actions := [] } : CMState).cases,
      c.case_id ≠ "GHOST") ∧
    (add_case_notes ({ cases := [], case_actions := [] } : CMState)
        "GHOST" "a note" "Analyst_1" "U1" 7 =
      ({ cases := [],
         case_actions :=
           [{ action_id := "U1",
              case_id := "GHOST",
              action_type := "NOTES_ADDED",
              description := "a note",
              analyst_name := "Analyst_1",
              timestamp := 7 }] } : CMState) ∧
      close_case ({ cases := [], case_actions := [] } : CMState)
          "GHOST" "done" "Analyst_1" "V1" "V2" 8 9 10 11 =
        ({ cases := [],
           case_actions :=
             [{ action_id := "V2",
                case_id := "GHOST",
                action_type := "CASE_CLOSED",
                description := "Case closed. Resolution: " ++ "done",
                analyst_name := "Analyst_1",
                timestamp := 10 }] } : CMState)) :=
  ⟨by decide,
    c10_unknown_id_notes_and_close_append
      ({ cases := [], case_actions := [] } : CMState)
      "GHOST" "a note" "Analyst_1" "U1" "done" "Analyst_1" "V1" "V2"
      7 8 9 10 11 (by decide)⟩

end ClaimTheorems
